import Mathlib

/-
Shallow embedding of the CCB repository (src/claude_cli.py and src/app.py).

Conventions of the embedding:
* Python strings are sequences of Unicode code points; Lean String wraps a
  list of Char (one Char per code point), so Python slicing, len, strip,
  lower, endswith and lexicographic comparison are modelled on String.data.
* Monetary cost is tracked by Python floats; the embedding uses exact
  rationals, which is faithful for the additive and comparative facts
  proved here.
* A storage directory is an association list from filename to file
  content.  File content is modelled at the json.load level: some d when
  the file parses to the conversation record shape written by
  save_conversation, none when json.load raises (a corrupt file).
* Python exceptions are modelled with Except: a raising computation
  returns Except.error.
-/

/-- Chat message as stored in the messages JSON array (both source files):
a dict with fields role and content. -/
structure Message where
  role : String
  content : String
deriving DecidableEq, Repr

/-- JSON document written by save_conversation (claude_cli.py lines 68-79,
app.py lines 54-68): fields id, created, model, messages, total_cost. -/
structure StoredData where
  id : String
  created : String
  model : String
  messages : List Message
  total_cost : ℚ
deriving DecidableEq, Repr

/-- Storage directory: association list from filename to parsed file
content; none stands for a file whose text json.load fails to parse. -/
abbrev Storage := List (String × Option StoredData)

/-- Filesystem read of one file by name: first matching entry. -/
def getFile : Storage → String → Option (Option StoredData)
  | [], _ => none
  | e :: es, fname => if e.1 == fname then some e.2 else getFile es fname

/-- Filesystem write of one file by name, overwriting in place when the
file already exists (open(filename, w) followed by json.dump). -/
def setFile : Storage → String → Option StoredData → Storage
  | [], fname, content => [(fname, content)]
  | e :: es, fname, content =>
      if e.1 == fname then (fname, content) :: es else e :: setFile es fname content

/-- Python str.strip(): remove leading and trailing whitespace. -/
def pyStrip (s : String) : String :=
  String.mk (((s.data.dropWhile Char.isWhitespace).reverse.dropWhile Char.isWhitespace).reverse)

/-- Python str.lower() (ASCII case folding, as used on command words). -/
def pyLower (s : String) : String :=
  String.mk (s.data.map Char.toLower)

/-- Python str.endswith(t). -/
def pyEndsWith (s t : String) : Bool :=
  t.data.isSuffixOf s.data

/-- Python lexicographic string comparison by code point, on char lists. -/
def chronLe : List Char → List Char → Bool
  | [], _ => true
  | _ :: _, [] => false
  | a :: as, b :: bs => if a < b then true else if b < a then false else chronLe as bs

/-- Python comparison a <= b on strings, used as the sort key comparison
for the created timestamps. -/
def createdLe (a b : String) : Bool := chronLe a.data b.data

/-- Pricing dict per million tokens, identical in claude_cli.py lines
58-62 and app.py lines 104-108. -/
def pricing : List (String × ℚ × ℚ) :=
  [("claude-sonnet-4-5-20250929", (3, 15)),
   ("claude-opus-4-20250514", (15, 75)),
   ("claude-sonnet-4-20250514", (3, 15))]

/-- Python pricing.get(model, (3, 15)): dict lookup with default. -/
def pricingGet (model : String) : ℚ × ℚ :=
  ((pricing.find? (fun e => e.1 == model)).map (fun e => e.2)).getD (3, 15)

/-- calculate_cost, identical in claude_cli.py lines 55-66 and app.py
lines 101-112: input and output token counts priced per million. -/
def calculate_cost (input_tokens output_tokens : ℕ) (model : String) : ℚ :=
  let p := pricingGet model
  (input_tokens * p.1 / 1000000) + (output_tokens * p.2 / 1000000)

/-- Preview computation inside list_conversations (claude_cli.py lines
96-101 with budget 60, app.py lines 87-92 with budget 50): the first
user message, truncated with an ellipsis when strictly longer than the
budget; the literal New conversation when no user message exists. -/
def previewOf (budget : ℕ) (msgs : List Message) : String :=
  match msgs.find? (fun m => m.role == "user") with
  | none => "New conversation"
  | some m =>
      if m.content.length > budget then m.content.take budget ++ "..." else m.content

/-- Stable insertion step for the descending sort on created: an element
is placed before the first entry whose key is at most its own, so entries
with equal keys keep their enumeration order. -/
def insertByCreatedDesc {α : Type} (key : α → String) (a : α) : List α → List α
  | [] => [a]
  | b :: bs =>
      if createdLe (key b) (key a) then a :: b :: bs else b :: insertByCreatedDesc key a bs

/-- Python sorted(conversations, key created, reverse True): the sorted
builtin is specified as a stable sort; with reverse it orders by key
descending while entries with equal keys keep their enumeration order.
Modelled as a stable insertion sort. -/
def sortByCreatedDesc {α : Type} (key : α → String) (l : List α) : List α :=
  l.foldr (insertByCreatedDesc key) []

/-- Outcome of one streaming request, covering claude_cli.py lines
190-204 and app.py lines 192-206: either the full fragment list together
with the final usage counts, or an exception raised while opening the
stream, iterating it, or reading the final message. -/
inductive StreamResult where
  | ok (fragments : List String) (input_tokens output_tokens : ℕ)
  | err (msg : String)
deriving DecidableEq, Repr

namespace claudeCli

/-- save_conversation of claude_cli.py lines 68-79: writes the record to
conversation_id dot json, with created set to the current time now. -/
def save_conversation (store : Storage) (conversation_id : String)
    (messages : List Message) (model_name : String) (total_cost : ℚ)
    (now : String) : Storage :=
  setFile store (conversation_id ++ ".json")
    (some { id := conversation_id, created := now, model := model_name,
            messages := messages, total_cost := total_cost })

/-- load_conversation of claude_cli.py lines 81-88: returns the parsed
record, returns none (Python None) when the file does not exist, and
raises when the file exists but json.load fails. -/
def load_conversation (store : Storage) (conversation_id : String) :
    Except Unit (Option StoredData) :=
  match getFile store (conversation_id ++ ".json") with
  | none => .ok none
  | some none => .error ()
  | some (some d) => .ok (some d)

/-- Listing entry built by list_conversations of claude_cli.py lines
102-108. -/
structure Summary where
  id : String
  created : String
  preview : String
  cost : ℚ
  model : String
deriving DecidableEq, Repr

/-- Body of the listing loop of claude_cli.py lines 96-108 for one
parsed record. -/
def summaryOf (d : StoredData) : Summary :=
  { id := d.id, created := d.created, preview := previewOf 60 d.messages,
    cost := d.total_cost, model := d.model }

/-- Listing loop of claude_cli.py lines 92-108: every file is opened and
parsed with json.load inside the loop, with no exception handling, so
the first corrupt file aborts the whole listing. -/
def readSummaries : Storage → Except Unit (List Summary)
  | [] => .ok []
  | (_, none) :: _ => .error ()
  | (_, some d) :: rest => (readSummaries rest).map (fun tail => summaryOf d :: tail)

/-- list_conversations of claude_cli.py lines 90-109: read every stored
record, then sort by created descending (line 109). -/
def list_conversations (store : Storage) : Except Unit (List Summary) :=
  (readSummaries store).map (sortByCreatedDesc (fun s => s.created))

/-- One submitted turn of the chat loop, claude_cli.py lines 181-221:
append the user message, then on stream success join the fragments,
price the reported usage, append the assistant message and autosave; on
a raised exception print the error and pop the just appended message. -/
def chat_turn (store : Storage) (messages : List Message)
    (model_id model_name conversation_id : String) (total_cost : ℚ)
    (user_input : String) (result : StreamResult) (now : String) :
    Storage × List Message × ℚ :=
  let msgs1 := messages ++ [{ role := "user", content := user_input }]
  match result with
  | .ok fragments input_tokens output_tokens =>
      let full_response := String.join fragments
      let cost := calculate_cost input_tokens output_tokens model_id
      let tc := total_cost + cost
      let msgs2 := msgs1 ++ [{ role := "assistant", content := full_response }]
      (save_conversation store conversation_id msgs2 model_name tc now, msgs2, tc)
  | .err _ => (store, msgs1.dropLast, total_cost)

/-- Input data of one successful turn, for iterating chat_turn. -/
structure TurnInput where
  user_input : String
  fragments : List String
  input_tokens : ℕ
  output_tokens : ℕ
  now : String
deriving Repr

/-- Sequence of successful turns of one chat loop session. -/
def runTurns (store : Storage) (messages : List Message)
    (model_id model_name conversation_id : String) (total_cost : ℚ) :
    List TurnInput → Storage × List Message × ℚ
  | [] => (store, messages, total_cost)
  | t :: ts =>
      let s := chat_turn store messages model_id model_name conversation_id total_cost
        t.user_input (.ok t.fragments t.input_tokens t.output_tokens) t.now
      runTurns s.1 s.2.1 model_id model_name conversation_id s.2.2 ts

/-- Multi-line collection loop of claude_cli.py lines 169-174: read
lines until a line whose stripped form is the terminator token. -/
def collectLines : List String → List String
  | [] => []
  | line :: rest => if pyStrip line == "###" then [] else line :: collectLines rest

/-- User input assembled by claude_cli.py lines 164-175 from the already
stripped first line and the following raw lines. -/
def joinedInput (first_line : String) (more : List String) : String :=
  if pyEndsWith first_line "###" then pyStrip (first_line.dropRight 3)
  else String.intercalate "\n" (first_line :: collectLines more)

/-- Action decided by one pass over claude_cli.py lines 146-181. -/
inductive LoopAction where
  | exitLoop
  | saveAndQuit
  | clearScreen
  | promptAgain
  | submit (user_input : String)
deriving DecidableEq, Repr

/-- Input dispatch of the chat loop, claude_cli.py lines 146-181: strip
the first line, recognize the command words, otherwise assemble the
possibly multi-line input and skip it when it strips to empty. -/
def parseInput (raw_first : String) (more : List String) : LoopAction :=
  let first_line := pyStrip raw_first
  if pyLower first_line == "exit" then .exitLoop
  else if pyLower first_line == "save" then .saveAndQuit
  else if pyLower first_line == "clear" then .clearScreen
  else
    let user_input := joinedInput first_line more
    if pyStrip user_input == "" then .promptAgain
    else .submit user_input

/-- One full iteration of the chat loop body, claude_cli.py lines
146-221, over the session state (storage, messages, total_cost).  The
save_choice parameter is the answer to the save prompt of the exit
command. -/
def loop_iteration (store : Storage) (messages : List Message)
    (model_id model_name conversation_id : String) (total_cost : ℚ)
    (raw_first : String) (more : List String) (save_choice : String)
    (result : StreamResult) (now : String) : Storage × List Message × ℚ :=
  match parseInput raw_first more with
  | .exitLoop =>
      if pyLower (pyStrip save_choice) == "y" then
        (save_conversation store conversation_id messages model_name total_cost now,
         messages, total_cost)
      else (store, messages, total_cost)
  | .saveAndQuit =>
      (save_conversation store conversation_id messages model_name total_cost now,
       messages, total_cost)
  | .clearScreen => (store, messages, total_cost)
  | .promptAgain => (store, messages, total_cost)
  | .submit user_input =>
      chat_turn store messages model_id model_name conversation_id total_cost
        user_input result now

end claudeCli

namespace app

/-- Session state kept in st.session_state by app.py lines 44-51. -/
structure SessionState where
  messages : List Message
  conversation_id : Option String
  total_cost : ℚ
  selected_model : String
deriving DecidableEq, Repr

/-- MODELS dict of app.py lines 37-41: display name to model id. -/
def MODELS : List (String × String) :=
  [("Claude Sonnet 4.5", "claude-sonnet-4-5-20250929"),
   ("Claude Opus 4", "claude-opus-4-20250514"),
   ("Claude Sonnet 4", "claude-sonnet-4-20250514")]

/-- Python MODELS[name] indexing; the UI only ever passes the three
display names present in the dict, so the default is never reached. -/
def modelsGet (name : String) : String :=
  ((MODELS.find? (fun e => e.1 == name)).map (fun e => e.2)).getD ""

/-- save_conversation of app.py lines 54-68: generates a conversation id
(gen_id, from the current time) when the session has none, then writes
the record with created set to the current time now. -/
def save_conversation (store : Storage) (s : SessionState) (gen_id now : String) :
    Storage × SessionState :=
  let cid := s.conversation_id.getD gen_id
  let s1 := { s with conversation_id := some cid }
  (setFile store (cid ++ ".json")
     (some { id := cid, created := now, model := s1.selected_model,
             messages := s1.messages, total_cost := s1.total_cost }),
   s1)

/-- load_conversation of app.py lines 70-79: when the file exists and
parses, session state is replaced from the record; when the file does
not exist, the body is skipped and the state is returned unchanged with
no error raised; when json.load fails the exception propagates. -/
def load_conversation (store : Storage) (s : SessionState) (conversation_id : String) :
    Except Unit SessionState :=
  match getFile store (conversation_id ++ ".json") with
  | none => .ok s
  | some none => .error ()
  | some (some d) =>
      .ok { messages := d.messages, conversation_id := some d.id,
            total_cost := d.total_cost, selected_model := d.model }

/-- Listing entry built by list_conversations of app.py lines 93-98 (no
model field, unlike the terminal shell). -/
structure AppSummary where
  id : String
  created : String
  preview : String
  cost : ℚ
deriving DecidableEq, Repr

/-- Body of the listing loop of app.py lines 87-98 for one parsed
record. -/
def summaryOf (d : StoredData) : AppSummary :=
  { id := d.id, created := d.created, preview := previewOf 50 d.messages,
    cost := d.total_cost }

/-- Listing loop of app.py lines 84-98: every file is parsed with
json.load inside the loop, with no exception handling, so the first
corrupt file aborts the whole listing. -/
def readSummaries : Storage → Except Unit (List AppSummary)
  | [] => .ok []
  | (_, none) :: _ => .error ()
  | (_, some d) :: rest => (readSummaries rest).map (fun tail => summaryOf d :: tail)

/-- list_conversations of app.py lines 81-99: read every stored record,
then sort by created descending (line 99). -/
def list_conversations (store : Storage) : Except Unit (List AppSummary) :=
  (readSummaries store).map (sortByCreatedDesc (fun s => s.created))

/-- Chat input handler of app.py lines 172-226: append the user message,
then on stream success join the fragments, price the reported usage for
the selected model, append the assistant message and save; on a raised
exception only display the error, leaving the appended user message in
the session state. -/
def chat_input_handler (store : Storage) (s : SessionState) (prompt : String)
    (result : StreamResult) (gen_id now : String) : Storage × SessionState :=
  let s1 := { s with messages := s.messages ++ [{ role := "user", content := prompt }] }
  match result with
  | .ok fragments input_tokens output_tokens =>
      let full_response := String.join fragments
      let cost := calculate_cost input_tokens output_tokens (modelsGet s1.selected_model)
      let s2 := { s1 with
        total_cost := s1.total_cost + cost,
        messages := s1.messages ++ [{ role := "assistant", content := full_response }] }
      save_conversation store s2 gen_id now
  | .err _ => (store, s1)

end app

deriving instance DecidableEq for Except

/-- Sample stored record used by the concrete instances below. -/
def mkRecord (i c : String) : StoredData :=
  { id := i, created := c, model := "Claude Sonnet 4.5",
    messages := [{ role := "user", content := "hello" }], total_cost := 0 }

/-- Sample storage directory holding one saved conversation. -/
def sampleStore : Storage := [("c.json", some (mkRecord "c" "2025-06-01T00:00:00"))]

/-- Session state exactly as produced by loading the sample record. -/
def sampleState : app.SessionState :=
  { messages := [{ role := "user", content := "hello" }], conversation_id := some "c",
    total_cost := 0, selected_model := "Claude Sonnet 4.5" }

/-- Session state of a fresh conversation in the graphical shell. -/
def emptyState : app.SessionState :=
  { messages := [], conversation_id := some "c", total_cost := 0,
    selected_model := "Claude Sonnet 4.5" }

/-! Helper lemmas about the storage model, pricing and the turn step. -/

theorem getFile_setFile (store : Storage) (f : String) (c : Option StoredData) :
    getFile (setFile store f c) f = some c := by
  induction store with
  | nil => simp [getFile, setFile]
  | cons e es ih =>
      by_cases h : e.1 == f
      · simp [setFile, h, getFile]
      · simp [setFile, h, getFile, ih]

theorem pricingGet_nonneg (m : String) : 0 ≤ (pricingGet m).1 ∧ 0 ≤ (pricingGet m).2 := by
  unfold pricingGet
  cases h : pricing.find? (fun e => e.1 == m) with
  | none => norm_num
  | some e =>
      have hm := List.mem_of_find?_eq_some h
      simp only [pricing, List.mem_cons, List.not_mem_nil, or_false] at hm
      rcases hm with h1 | h1 | h1 <;> subst h1 <;> norm_num

theorem calculate_cost_nonneg (i o : ℕ) (m : String) : 0 ≤ calculate_cost i o m := by
  obtain ⟨h1, h2⟩ := pricingGet_nonneg m
  unfold calculate_cost
  have hi : (0 : ℚ) ≤ (i : ℚ) := Nat.cast_nonneg i
  have ho : (0 : ℚ) ≤ (o : ℚ) := Nat.cast_nonneg o
  exact add_nonneg
    (div_nonneg (mul_nonneg hi h1) (by norm_num))
    (div_nonneg (mul_nonneg ho h2) (by norm_num))

theorem chat_turn_ok_eq (store : Storage) (messages : List Message)
    (model_id model_name conversation_id : String) (total_cost : ℚ)
    (user_input : String) (fragments : List String) (input_tokens output_tokens : ℕ)
    (now : String) :
    claudeCli.chat_turn store messages model_id model_name conversation_id total_cost
        user_input (.ok fragments input_tokens output_tokens) now =
      (claudeCli.save_conversation store conversation_id
         (messages ++ [{ role := "user", content := user_input },
                       { role := "assistant", content := String.join fragments }])
         model_name (total_cost + calculate_cost input_tokens output_tokens model_id) now,
       messages ++ [{ role := "user", content := user_input },
                    { role := "assistant", content := String.join fragments }],
       total_cost + calculate_cost input_tokens output_tokens model_id) := by
  simp [claudeCli.chat_turn]

theorem runTurns_cost_le (model_id model_name conversation_id : String) :
    ∀ (ts : List claudeCli.TurnInput) (store : Storage) (messages : List Message)
      (total_cost : ℚ),
      total_cost ≤
        (claudeCli.runTurns store messages model_id model_name conversation_id
          total_cost ts).2.2 := by
  intro ts
  induction ts with
  | nil => intro store messages total_cost; simp [claudeCli.runTurns]
  | cons t ts ih =>
      intro store messages total_cost
      simp only [claudeCli.runTurns, chat_turn_ok_eq]
      exact le_trans
        (le_add_of_nonneg_right
          (calculate_cost_nonneg t.input_tokens t.output_tokens model_id))
        (ih _ _ _)

/-! Correctness of the stable descending sort on the created key. -/

theorem chronLe_total : ∀ a b : List Char, chronLe a b = true ∨ chronLe b a = true := by
  intro a
  induction a with
  | nil => intro b; left; rfl
  | cons x xs ih =>
      intro b
      cases b with
      | nil => right; rfl
      | cons y ys =>
          by_cases h1 : x < y
          · left; simp [chronLe, h1]
          · by_cases h2 : y < x
            · right; simp [chronLe, h2]
            · rcases ih ys with h | h
              · left; simp [chronLe, h1, h2, h]
              · right; simp [chronLe, h1, h2, h]

theorem chronLe_trans :
    ∀ a b c : List Char, chronLe a b = true → chronLe b c = true → chronLe a c = true := by
  intro a
  induction a with
  | nil => intro b c _ _; rfl
  | cons x xs ih =>
      intro b c hab hbc
      cases b with
      | nil => simp [chronLe] at hab
      | cons y ys =>
          cases c with
          | nil => simp [chronLe] at hbc
          | cons z zs =>
              by_cases h1 : x < y
              · by_cases h2 : y < z
                · simp [chronLe, lt_trans h1 h2]
                · by_cases h3 : z < y
                  · simp [chronLe, h2, h3] at hbc
                  · have hyz : y = z := le_antisymm (not_lt.mp h3) (not_lt.mp h2)
                    subst hyz
                    simp [chronLe, h1]
              · by_cases h4 : y < x
                · simp [chronLe, h1, h4] at hab
                · have hxy : x = y := le_antisymm (not_lt.mp h4) (not_lt.mp h1)
                  subst hxy
                  simp only [chronLe, if_neg (lt_irrefl x)] at hab
                  by_cases h2 : x < z
                  · simp [chronLe, h2]
                  · by_cases h3 : z < x
                    · simp [chronLe, h2, h3] at hbc
                    · simp only [chronLe, if_neg h2, if_neg h3] at hbc ⊢
                      exact ih ys zs hab hbc

theorem createdLe_total (a b : String) : createdLe a b = true ∨ createdLe b a = true :=
  chronLe_total a.data b.data

theorem createdLe_trans (a b c : String)
    (h1 : createdLe a b = true) (h2 : createdLe b c = true) : createdLe a c = true :=
  chronLe_trans a.data b.data c.data h1 h2

theorem insertByCreatedDesc_perm {α : Type} (key : α → String) (a : α) (l : List α) :
    List.Perm (insertByCreatedDesc key a l) (a :: l) := by
  induction l with
  | nil => simp [insertByCreatedDesc]
  | cons b bs ih =>
      unfold insertByCreatedDesc
      by_cases h : createdLe (key b) (key a) = true
      · rw [if_pos h]
      · rw [if_neg h]
        exact (ih.cons b).trans (List.Perm.swap a b bs)

theorem sortByCreatedDesc_perm {α : Type} (key : α → String) (l : List α) :
    List.Perm (sortByCreatedDesc key l) l := by
  induction l with
  | nil => simp [sortByCreatedDesc]
  | cons x xs ih =>
      exact (insertByCreatedDesc_perm key x _).trans (ih.cons x)

theorem insertByCreatedDesc_pairwise {α : Type} (key : α → String) (a : α) (l : List α)
    (hl : l.Pairwise (fun u v => createdLe (key v) (key u) = true)) :
    (insertByCreatedDesc key a l).Pairwise (fun u v => createdLe (key v) (key u) = true) := by
  induction l with
  | nil => simp [insertByCreatedDesc]
  | cons b bs ih =>
      rcases List.pairwise_cons.mp hl with ⟨hb, hbs⟩
      unfold insertByCreatedDesc
      by_cases h : createdLe (key b) (key a) = true
      · rw [if_pos h]
        refine List.pairwise_cons.mpr ⟨?_, hl⟩
        intro x hx
        rcases List.mem_cons.mp hx with rfl | hx'
        · exact h
        · exact createdLe_trans _ _ _ (hb x hx') h
      · rw [if_neg h]
        refine List.pairwise_cons.mpr ⟨?_, ih hbs⟩
        intro x hx
        have hx' := (insertByCreatedDesc_perm key a bs).mem_iff.mp hx
        rcases List.mem_cons.mp hx' with rfl | hx''
        · rcases createdLe_total (key b) (key x) with ht | ht
          · exact absurd ht h
          · exact ht
        · exact hb x hx''

theorem sortByCreatedDesc_pairwise {α : Type} (key : α → String) (l : List α) :
    (sortByCreatedDesc key l).Pairwise (fun u v => createdLe (key v) (key u) = true) := by
  induction l with
  | nil => simp [sortByCreatedDesc]
  | cons x xs ih =>
      exact insertByCreatedDesc_pairwise key x _ ih

/-! Helper lemmas about the listing loops. -/

theorem cli_readSummaries_ok :
    ∀ store : Storage, (∀ e ∈ store, e.2 ≠ none) →
      ∃ l, claudeCli.readSummaries store = .ok l ∧ l.length = store.length := by
  intro store
  induction store with
  | nil => exact fun _ => ⟨[], rfl, rfl⟩
  | cons e es ih =>
      intro h
      obtain ⟨l, hl, hlen⟩ := ih (fun x hx => h x (List.mem_cons_of_mem e hx))
      obtain ⟨f, c⟩ := e
      cases c with
      | none => exact absurd rfl (h (f, none) (List.mem_cons_self _ _))
      | some d =>
          exact ⟨claudeCli.summaryOf d :: l,
            by simp [claudeCli.readSummaries, hl, Except.map], by simp [hlen]⟩

theorem cli_readSummaries_err :
    ∀ store : Storage, (∃ e ∈ store, e.2 = none) →
      claudeCli.readSummaries store = .error () := by
  intro store
  induction store with
  | nil => rintro ⟨e, he, -⟩; exact absurd he (List.not_mem_nil e)
  | cons e es ih =>
      rintro ⟨x, hx, hx2⟩
      obtain ⟨f, c⟩ := e
      cases c with
      | none => rfl
      | some d =>
          rcases List.mem_cons.mp hx with rfl | hmem
          · exact absurd hx2 (by simp)
          · simp [claudeCli.readSummaries, ih ⟨x, hmem, hx2⟩, Except.map]

theorem app_readSummaries_ok :
    ∀ store : Storage, (∀ e ∈ store, e.2 ≠ none) →
      ∃ l, app.readSummaries store = .ok l ∧ l.length = store.length := by
  intro store
  induction store with
  | nil => exact fun _ => ⟨[], rfl, rfl⟩
  | cons e es ih =>
      intro h
      obtain ⟨l, hl, hlen⟩ := ih (fun x hx => h x (List.mem_cons_of_mem e hx))
      obtain ⟨f, c⟩ := e
      cases c with
      | none => exact absurd rfl (h (f, none) (List.mem_cons_self _ _))
      | some d =>
          exact ⟨app.summaryOf d :: l,
            by simp [app.readSummaries, hl, Except.map], by simp [hlen]⟩

theorem app_readSummaries_err :
    ∀ store : Storage, (∃ e ∈ store, e.2 = none) →
      app.readSummaries store = .error () := by
  intro store
  induction store with
  | nil => rintro ⟨e, he, -⟩; exact absurd he (List.not_mem_nil e)
  | cons e es ih =>
      rintro ⟨x, hx, hx2⟩
      obtain ⟨f, c⟩ := e
      cases c with
      | none => rfl
      | some d =>
          rcases List.mem_cons.mp hx with rfl | hmem
          · exact absurd hx2 (by simp)
          · simp [app.readSummaries, ih ⟨x, hmem, hx2⟩, Except.map]

/-! Claim theorems. -/

/-- C1 counterexample: in the graphical shell (app.py lines 225-226) a
turn that fails during streaming leaves the just appended user message in
the in-memory history: starting from an empty message list, the failed
call ends with one message, so the list does not have the same length as
before the call. -/
theorem claim_C1_counterexample :
    (app.chat_input_handler [] emptyState "hi" (.err "network error") "gen" "t").2.messages =
      [{ role := "user", content := "hi" }] ∧
    (app.chat_input_handler [] emptyState "hi" (.err "network error") "gen" "t").2.messages.length ≠
      emptyState.messages.length := by
  constructor
  · rfl
  · decide

/-- C1 (corrected): rollback on a streaming failure holds in the terminal
shell: chat_loop pops the just appended user message (claude_cli.py line
221), leaving messages, total_cost and storage exactly as before the
call, with no partial assistant message anywhere.  In the graphical
shell the handler only displays the error (app.py lines 225-226):
total_cost and storage are unchanged and no assistant message is
appended, but the just appended user message remains in the session
state. -/
theorem claim_C1_amended :
    (∀ (store : Storage) (messages : List Message)
        (model_id model_name conversation_id : String) (total_cost : ℚ)
        (user_input e now : String),
        claudeCli.chat_turn store messages model_id model_name conversation_id
          total_cost user_input (.err e) now = (store, messages, total_cost)) ∧
    (∀ (store : Storage) (s : app.SessionState) (prompt e gen_id now : String),
        app.chat_input_handler store s prompt (.err e) gen_id now =
          (store, { s with
            messages := s.messages ++ [{ role := "user", content := prompt }] })) := by
  constructor
  · intro store messages model_id model_name conversation_id total_cost user_input e now
    simp [claudeCli.chat_turn]
  · intro store s prompt e gen_id now
    rfl

/-- C3 (confirmed): load after save reproduces id, model, messages and
total_cost exactly, in both shells; the created field of the stored
record is the save time now, overwritten on every save. -/
theorem claim_C3_roundtrip :
    (∀ (store : Storage) (conversation_id : String) (messages : List Message)
        (model_name : String) (total_cost : ℚ) (now : String),
        claudeCli.load_conversation
            (claudeCli.save_conversation store conversation_id messages model_name
              total_cost now) conversation_id =
          .ok (some { id := conversation_id, created := now, model := model_name,
                      messages := messages, total_cost := total_cost })) ∧
    (∀ (store : Storage) (s : app.SessionState) (gen_id now : String)
        (t : app.SessionState),
        app.load_conversation (app.save_conversation store s gen_id now).1 t
            (s.conversation_id.getD gen_id) =
          .ok { messages := s.messages,
                conversation_id := some (s.conversation_id.getD gen_id),
                total_cost := s.total_cost, selected_model := s.selected_model }) := by
  constructor
  · intro store conversation_id messages model_name total_cost now
    simp [claudeCli.load_conversation, claudeCli.save_conversation, getFile_setFile]
  · intro store s gen_id now t
    simp [app.load_conversation, app.save_conversation, getFile_setFile]

/-- C4 (confirmed): a successful turn appends exactly two messages (the
user message, then the assistant message) and adds exactly the cost
computed by calculate_cost from the reported usage for the session
model, in both shells; consequently total_cost never decreases across
any sequence of successful turns. -/
theorem claim_C4_append_then_cost :
    (∀ (store : Storage) (messages : List Message)
        (model_id model_name conversation_id : String) (total_cost : ℚ)
        (user_input : String) (fragments : List String)
        (input_tokens output_tokens : ℕ) (now : String),
        (claudeCli.chat_turn store messages model_id model_name conversation_id
            total_cost user_input (.ok fragments input_tokens output_tokens)
            now).2.1.length = messages.length + 2 ∧
        (claudeCli.chat_turn store messages model_id model_name conversation_id
            total_cost user_input (.ok fragments input_tokens output_tokens)
            now).2.2 = total_cost + calculate_cost input_tokens output_tokens model_id ∧
        total_cost ≤
          (claudeCli.chat_turn store messages model_id model_name conversation_id
            total_cost user_input (.ok fragments input_tokens output_tokens) now).2.2) ∧
    (∀ (store : Storage) (s : app.SessionState) (prompt : String)
        (fragments : List String) (input_tokens output_tokens : ℕ) (gen_id now : String),
        (app.chat_input_handler store s prompt
            (.ok fragments input_tokens output_tokens) gen_id
            now).2.messages.length = s.messages.length + 2 ∧
        (app.chat_input_handler store s prompt
            (.ok fragments input_tokens output_tokens) gen_id now).2.total_cost =
          s.total_cost +
            calculate_cost input_tokens output_tokens (app.modelsGet s.selected_model) ∧
        s.total_cost ≤
          (app.chat_input_handler store s prompt
            (.ok fragments input_tokens output_tokens) gen_id now).2.total_cost) ∧
    (∀ (store : Storage) (messages : List Message)
        (model_id model_name conversation_id : String) (total_cost : ℚ)
        (ts : List claudeCli.TurnInput),
        total_cost ≤
          (claudeCli.runTurns store messages model_id model_name conversation_id
            total_cost ts).2.2) := by
  refine ⟨?_, ?_, ?_⟩
  · intro store messages model_id model_name conversation_id total_cost
      user_input fragments input_tokens output_tokens now
    rw [chat_turn_ok_eq]
    refine ⟨by simp, rfl, ?_⟩
    exact le_add_of_nonneg_right
      (calculate_cost_nonneg input_tokens output_tokens model_id)
  · intro store s prompt fragments input_tokens output_tokens gen_id now
    refine ⟨by simp [app.chat_input_handler, app.save_conversation], ?_, ?_⟩
    · simp [app.chat_input_handler, app.save_conversation]
    · simp only [app.chat_input_handler, app.save_conversation]
      exact le_add_of_nonneg_right
        (calculate_cost_nonneg input_tokens output_tokens
          (app.modelsGet s.selected_model))
  · intro store messages model_id model_name conversation_id total_cost ts
    exact runTurns_cost_le model_id model_name conversation_id ts store messages total_cost

/-- C6 (confirmed): calculate_cost is input tokens times the input price
per million plus output tokens times the output price per million; at one
million tokens each on the opus model it equals 90, and zero tokens cost
zero for every model identifier. -/
theorem claim_C6_pricing :
    (∀ (i o : ℕ) (m : String),
        calculate_cost i o m =
          (i : ℚ) * (pricingGet m).1 / 1000000 + (o : ℚ) * (pricingGet m).2 / 1000000) ∧
    calculate_cost 1000000 1000000 "claude-opus-4-20250514" = 90 ∧
    (∀ m : String, calculate_cost 0 0 m = 0) := by
  refine ⟨fun i o m => rfl, ?_, fun m => ?_⟩
  · have hp : pricingGet "claude-opus-4-20250514" = (15, 75) := by decide
    unfold calculate_cost
    rw [hp]
    norm_num
  · simp [calculate_cost]

/-- C7 (confirmed): a model identifier absent from the pricing dict falls
back to the default tier (3, 15) instead of failing; in particular the
identifier nonexistent-model-id prices at (3, 15). -/
theorem claim_C7_unknown_model :
    (∀ m : String, (∀ p ∈ pricing, p.1 ≠ m) → pricingGet m = (3, 15)) ∧
    pricingGet "nonexistent-model-id" = (3, 15) := by
  constructor
  · intro m h
    unfold pricingGet
    have hn : pricing.find? (fun e => e.1 == m) = none := by
      rw [List.find?_eq_none]
      intro x hx
      simp only [beq_iff_eq]
      exact h x hx
    rw [hn]
    rfl
  · rfl

/-- C7 witness: the fallback applied at a concrete unknown identifier. -/
theorem claim_C7_witness : pricingGet "some-future-model" = (3, 15) :=
  claim_C7_unknown_model.1 "some-future-model" (by decide)

/-- C2 counterexample: with one valid record and one corrupt file, both
listings raise instead of returning the one valid summary: a single
unparsable file hides all other conversations. -/
theorem claim_C2_counterexample :
    claudeCli.list_conversations
        [("c.json", some (mkRecord "c" "2025-06-01T00:00:00")), ("bad.json", none)] =
      .error () ∧
    app.list_conversations
        [("c.json", some (mkRecord "c" "2025-06-01T00:00:00")), ("bad.json", none)] =
      .error () := by
  constructor
  · rfl
  · rfl

/-- C2 (corrected): list_conversations parses every file with no
exception handling (claude_cli.py lines 93-95, app.py lines 84-86), so
one corrupt record aborts the whole listing rather than being skipped;
only when every stored record parses does the listing return exactly one
summary per record. -/
theorem claim_C2_amended :
    (∀ store : Storage, (∀ e ∈ store, e.2 ≠ none) →
        ∃ l, claudeCli.list_conversations store = .ok l ∧ l.length = store.length) ∧
    (∀ store : Storage, (∃ e ∈ store, e.2 = none) →
        claudeCli.list_conversations store = .error ()) ∧
    (∀ store : Storage, (∀ e ∈ store, e.2 ≠ none) →
        ∃ l, app.list_conversations store = .ok l ∧ l.length = store.length) ∧
    (∀ store : Storage, (∃ e ∈ store, e.2 = none) →
        app.list_conversations store = .error ()) := by
  refine ⟨?_, ?_, ?_, ?_⟩
  · intro store h
    obtain ⟨l, hl, hlen⟩ := cli_readSummaries_ok store h
    refine ⟨sortByCreatedDesc (fun s => s.created) l, ?_, ?_⟩
    · simp [claudeCli.list_conversations, hl, Except.map]
    · rw [(sortByCreatedDesc_perm (fun s => s.created) l).length_eq, hlen]
  · intro store h
    simp [claudeCli.list_conversations, cli_readSummaries_err store h, Except.map]
  · intro store h
    obtain ⟨l, hl, hlen⟩ := app_readSummaries_ok store h
    refine ⟨sortByCreatedDesc (fun s => s.created) l, ?_, ?_⟩
    · simp [app.list_conversations, hl, Except.map]
    · rw [(sortByCreatedDesc_perm (fun s => s.created) l).length_eq, hlen]
  · intro store h
    simp [app.list_conversations, app_readSummaries_err store h, Except.map]

/-- C2 witness: the amended listing behaviour at concrete stores, one
with a single valid record and one with an added corrupt file. -/
theorem claim_C2_witness :
    (∃ l, claudeCli.list_conversations sampleStore = .ok l ∧
      l.length = sampleStore.length) ∧
    claudeCli.list_conversations
        [("c.json", some (mkRecord "c" "2025-06-01T00:00:00")), ("other.json", none)] =
      .error () := by
  constructor
  · exact claim_C2_amended.1 sampleStore (by decide)
  · exact claim_C2_amended.2.1
      [("c.json", some (mkRecord "c" "2025-06-01T00:00:00")), ("other.json", none)]
      ⟨("other.json", none), by decide, rfl⟩

/-- C5 counterexample: two records with equal created timestamps, stored
in enumeration order of ascending id.  The listing keeps them in
enumeration order (ascending id), because Python sorted is stable; the
claimed tie-break by id descending would instead put the larger id
first. -/
theorem claim_C5_counterexample :
    claudeCli.list_conversations
        [("2025a.json", some (mkRecord "2025a" "2025-06-01T00:00:00")),
         ("2025b.json", some (mkRecord "2025b" "2025-06-01T00:00:00"))] =
      .ok [claudeCli.summaryOf (mkRecord "2025a" "2025-06-01T00:00:00"),
           claudeCli.summaryOf (mkRecord "2025b" "2025-06-01T00:00:00")] ∧
    claudeCli.list_conversations
        [("2025a.json", some (mkRecord "2025a" "2025-06-01T00:00:00")),
         ("2025b.json", some (mkRecord "2025b" "2025-06-01T00:00:00"))] ≠
      .ok [claudeCli.summaryOf (mkRecord "2025b" "2025-06-01T00:00:00"),
           claudeCli.summaryOf (mkRecord "2025a" "2025-06-01T00:00:00")] := by
  constructor
  · decide
  · decide

/-- C5 (corrected): a successful listing is ordered by created
descending and is a permutation of the stored summaries, in both shells;
ties on created keep the storage enumeration order (stable sort), they
are not broken by id descending.  For three records created at
t1 < t2 < t3 the result order is t3, t2, t1. -/
theorem claim_C5_amended :
    (∀ (store : Storage) (l : List claudeCli.Summary),
        claudeCli.list_conversations store = .ok l →
          l.Pairwise (fun a b => createdLe b.created a.created = true)) ∧
    (∀ (store : Storage) (l0 l : List claudeCli.Summary),
        claudeCli.readSummaries store = .ok l0 →
          claudeCli.list_conversations store = .ok l → List.Perm l l0) ∧
    (∀ (store : Storage) (l : List app.AppSummary),
        app.list_conversations store = .ok l →
          l.Pairwise (fun a b => createdLe b.created a.created = true)) ∧
    (∀ (store : Storage) (l0 l : List app.AppSummary),
        app.readSummaries store = .ok l0 →
          app.list_conversations store = .ok l → List.Perm l l0) ∧
    claudeCli.list_conversations
        [("a.json", some (mkRecord "a" "2025-01-01T00:00:00")),
         ("c.json", some (mkRecord "c" "2025-01-03T00:00:00")),
         ("b.json", some (mkRecord "b" "2025-01-02T00:00:00"))] =
      .ok [claudeCli.summaryOf (mkRecord "c" "2025-01-03T00:00:00"),
           claudeCli.summaryOf (mkRecord "b" "2025-01-02T00:00:00"),
           claudeCli.summaryOf (mkRecord "a" "2025-01-01T00:00:00")] := by
  refine ⟨?_, ?_, ?_, ?_, by decide⟩
  · intro store l h
    cases hr : claudeCli.readSummaries store with
    | error u => simp [claudeCli.list_conversations, hr, Except.map] at h
    | ok l0 =>
        simp only [claudeCli.list_conversations, hr, Except.map, Except.ok.injEq] at h
        subst h
        exact sortByCreatedDesc_pairwise (fun s => s.created) l0
  · intro store l0 l h0 h
    simp only [claudeCli.list_conversations, h0, Except.map, Except.ok.injEq] at h
    subst h
    exact sortByCreatedDesc_perm (fun s => s.created) l0
  · intro store l h
    cases hr : app.readSummaries store with
    | error u => simp [app.list_conversations, hr, Except.map] at h
    | ok l0 =>
        simp only [app.list_conversations, hr, Except.map, Except.ok.injEq] at h
        subst h
        exact sortByCreatedDesc_pairwise (fun s => s.created) l0
  · intro store l0 l h0 h
    simp only [app.list_conversations, h0, Except.map, Except.ok.injEq] at h
    subst h
    exact sortByCreatedDesc_perm (fun s => s.created) l0

/-- C5 witness: the amended ordering facts applied at the concrete
one-record store. -/
theorem claim_C5_witness :
    List.Pairwise (fun a b => createdLe b.created a.created = true)
      [claudeCli.summaryOf (mkRecord "c" "2025-06-01T00:00:00")] ∧
    List.Perm [claudeCli.summaryOf (mkRecord "c" "2025-06-01T00:00:00")]
      [claudeCli.summaryOf (mkRecord "c" "2025-06-01T00:00:00")] := by
  constructor
  · exact claim_C5_amended.1 sampleStore
      [claudeCli.summaryOf (mkRecord "c" "2025-06-01T00:00:00")] (by decide)
  · exact claim_C5_amended.2.1 sampleStore
      [claudeCli.summaryOf (mkRecord "c" "2025-06-01T00:00:00")]
      [claudeCli.summaryOf (mkRecord "c" "2025-06-01T00:00:00")] (by decide) (by decide)

/-- C8 counterexample: in the graphical shell, loading an id with no
stored record is a silent no-op (app.py lines 70-79): it neither fails
nor signals anything, and its outcome is indistinguishable from a
successful load of an existing conversation that restores the same
state. -/
theorem claim_C8_counterexample :
    app.load_conversation sampleStore sampleState "missing" = .ok sampleState ∧
    app.load_conversation sampleStore sampleState "missing" =
      app.load_conversation sampleStore sampleState "c" := by
  constructor
  · decide
  · decide

/-- C8 (corrected): in the terminal shell, load_conversation of a
missing id returns Python None (claude_cli.py lines 84-88), an outcome
distinct from every successful load and from the exception raised on a
corrupt record, so its callers can tell the cases apart.  In the
graphical shell, loading a missing id silently returns with the session
state unchanged, indistinguishable from success. -/
theorem claim_C8_amended :
    (∀ (store : Storage) (conversation_id : String),
        getFile store (conversation_id ++ ".json") = none →
          claudeCli.load_conversation store conversation_id = .ok none ∧
          (∀ d : StoredData,
            claudeCli.load_conversation store conversation_id ≠ .ok (some d)) ∧
          claudeCli.load_conversation store conversation_id ≠ .error ()) ∧
    (∀ (store : Storage) (s : app.SessionState) (conversation_id : String),
        getFile store (conversation_id ++ ".json") = none →
          app.load_conversation store s conversation_id = .ok s) := by
  constructor
  · intro store conversation_id h
    refine ⟨?_, ?_, ?_⟩ <;> simp [claudeCli.load_conversation, h]
  · intro store s conversation_id h
    simp [app.load_conversation, h]

/-- C8 witness: the amended load behaviour at an empty storage
directory. -/
theorem claim_C8_witness :
    (claudeCli.load_conversation [] "nope" = .ok none ∧
      claudeCli.load_conversation [] "nope" ≠ .error ()) ∧
    app.load_conversation [] emptyState "nope" = .ok emptyState := by
  refine ⟨⟨(claim_C8_amended.1 [] "nope" rfl).1,
    (claim_C8_amended.1 [] "nope" rfl).2.2⟩,
    claim_C8_amended.2 [] emptyState "nope" rfl⟩

/-- C9 (confirmed): the listing preview is the literal New conversation
when no user message exists; when the first user message is strictly
longer than the budget the preview is its first budget characters
followed by an ellipsis, and otherwise it is the message content
unchanged.  The terminal shell instantiates the budget at 60 and the
graphical shell at 50. -/
theorem claim_C9_preview :
    (∀ (budget : ℕ) (msgs : List Message),
        msgs.find? (fun m => m.role == "user") = none →
          previewOf budget msgs = "New conversation") ∧
    (∀ (budget : ℕ) (msgs : List Message) (m : Message),
        msgs.find? (fun x => x.role == "user") = some m →
          m.content.length > budget →
            previewOf budget msgs = m.content.take budget ++ "...") ∧
    (∀ (budget : ℕ) (msgs : List Message) (m : Message),
        msgs.find? (fun x => x.role == "user") = some m →
          m.content.length ≤ budget → previewOf budget msgs = m.content) ∧
    (∀ d : StoredData, (claudeCli.summaryOf d).preview = previewOf 60 d.messages) ∧
    (∀ d : StoredData, (app.summaryOf d).preview = previewOf 50 d.messages) := by
  refine ⟨?_, ?_, ?_, fun d => rfl, fun d => rfl⟩
  · intro budget msgs h
    simp [previewOf, h]
  · intro budget msgs m h hlen
    simp [previewOf, h, hlen]
  · intro budget msgs m h hlen
    simp [previewOf, h, Nat.not_lt.mpr hlen]

/-- C9 witness: the preview rules applied at concrete message lists. -/
theorem claim_C9_witness :
    previewOf 60 [] = "New conversation" ∧
    previewOf 2 [{ role := "user", content := "abcd" }] = "abcd".take 2 ++ "..." ∧
    previewOf 4 [{ role := "user", content := "abcd" }] = "abcd" := by
  refine ⟨?_, ?_, ?_⟩
  · exact claim_C9_preview.1 60 [] rfl
  · exact claim_C9_preview.2.1 2 [{ role := "user", content := "abcd" }]
      { role := "user", content := "abcd" } (by decide) (by decide)
  · exact claim_C9_preview.2.2.1 4 [{ role := "user", content := "abcd" }]
      { role := "user", content := "abcd" } (by decide) (by decide)

/-- C10 (confirmed): in the terminal chat loop, an entry that strips to
the empty string and is not one of the command words produces no message
append, no model request and no state change: the iteration returns the
storage, the message list and the total cost untouched, for every
possible stream outcome. -/
theorem claim_C10_blank_input :
    ∀ (store : Storage) (messages : List Message)
      (model_id model_name conversation_id : String) (total_cost : ℚ)
      (raw_first : String) (more : List String) (save_choice : String)
      (result : StreamResult) (now : String),
      pyLower (pyStrip raw_first) ≠ "exit" →
      pyLower (pyStrip raw_first) ≠ "save" →
      pyLower (pyStrip raw_first) ≠ "clear" →
      pyStrip (claudeCli.joinedInput (pyStrip raw_first) more) = "" →
      claudeCli.loop_iteration store messages model_id model_name conversation_id
        total_cost raw_first more save_choice result now =
        (store, messages, total_cost) := by
  intro store messages model_id model_name conversation_id total_cost
    raw_first more save_choice result now h1 h2 h3 h4
  have h1' : (pyLower (pyStrip raw_first) == "exit") = false := beq_eq_false_iff_ne.mpr h1
  have h2' : (pyLower (pyStrip raw_first) == "save") = false := beq_eq_false_iff_ne.mpr h2
  have h3' : (pyLower (pyStrip raw_first) == "clear") = false := beq_eq_false_iff_ne.mpr h3
  have h4' : (pyStrip (claudeCli.joinedInput (pyStrip raw_first) more) == "") = true :=
    beq_iff_eq.mpr h4
  simp [claudeCli.loop_iteration, claudeCli.parseInput, h1', h2', h3', h4']

/-- C10 witness: a whitespace-only entry closed by the multi-line
terminator leaves the session untouched. -/
theorem claim_C10_witness :
    claudeCli.loop_iteration [] [] "claude-sonnet-4-5-20250929" "Claude Sonnet 4.5"
        "20250601_000000" 0 "   " ["###"] "n" (.err "unused") "t" = ([], [], 0) :=
  claim_C10_blank_input [] [] "claude-sonnet-4-5-20250929" "Claude Sonnet 4.5"
    "20250601_000000" 0 "   " ["###"] "n" (.err "unused") "t"
    (by decide) (by decide) (by decide) (by decide)
